import Mathlib

/-!
Shallow embedding of the imap_tools IMAP client (src/main.py).

Modelled here, following the source line by line: the UID-addressed mutation
commands of MailBox (delete, copy, move, flag, seen) together with the
uid-list validation helper; the fetch loop; UID extraction from raw FETCH
fragments; address parsing of MailMessage; the To-header accessors; folder
selection; the quoting and STATUS token pairing of MailFolderManager.

The network transport (imaplib) and the standard mail library (email) are
external collaborators; their replies are taken as oracle functions, and
every command that reaches the transport is recorded in an explicit trace
so that claims about which commands are issued can be stated.  Python
exceptions are modelled with Except; Python byte strings that only flow
through the code are modelled as Lean strings.
-/

set_option maxRecDepth 8000

/-- Python exception values raised by the embedded code (the nested error
classes of src/main.py all derive from one base class; only the payloads
the claims inspect are kept). -/
inductive PyErr
  | uidParamError (msg : String)
  | wrongFlagError (msg : String)
  | searchError (msg : String)
  | folderSetError (data : String)
  | valueError (msg : String)
  | attributeError
  deriving DecidableEq, Repr

/-- Decidable equality for Except results, so that closed runs of the
embedded code can be checked by evaluation. -/
instance {ε α : Type} [DecidableEq ε] [DecidableEq α] : DecidableEq (Except ε α) := fun a b =>
  match a, b with
  | .error x, .error y =>
      if h : x = y then .isTrue (h ▸ rfl) else .isFalse (fun hh => h (Except.error.inj hh))
  | .error _, .ok _ => .isFalse (fun hh => Except.noConfusion hh)
  | .ok _, .error _ => .isFalse (fun hh => Except.noConfusion hh)
  | .ok x, .ok y =>
      if h : x = y then .isTrue (h ▸ rfl) else .isFalse (fun hh => h (Except.ok.inj hh))

/-- A raw (status, data) reply from the IMAP transport. -/
abbrev Resp := String × String

/-- One command sent to the transport: the observable network trace. -/
inductive Cmd
  | uid (command : String) (args : List String)
  | expunge
  | select (folder : String)
  deriving DecidableEq, Repr

/-- The imaplib transport collaborator; replies are an oracle. -/
structure Transport where
  uid : String → List String → Resp
  expunge : Resp
  select : String → Resp

/-- Python str.upper for the ASCII range, as a structural map (the flag
names the source compares are ASCII). -/
def pyUpper (s : String) : String := String.mk (s.data.map Char.toUpper)

/-- Python str.lower for the ASCII range, as a structural map. -/
def pyLower (s : String) : String := String.mk (s.data.map Char.toLower)

/-- Python sep.join(list): the elements interleaved with the separator. -/
def pyJoinSep (sep : String) : List String → String
  | [] => ""
  | [x] => x
  | x :: y :: t => x ++ sep ++ pyJoinSep sep (y :: t)

/-- Python str.split with a one-character separator (the only separators the
source uses), accumulator form. -/
def splitCharAux (sep : Char) : List Char → List Char → List (List Char)
  | [], acc => [acc.reverse]
  | c :: t, acc =>
      if c = sep then acc.reverse :: splitCharAux sep t []
      else splitCharAux sep t (c :: acc)

/-- Python str.split with a one-character separator: an empty string gives
the one-element list holding the empty string, as in Python. -/
def pySplit (s : String) (sep : Char) : List String :=
  (splitCharAux sep s.data []).map String.mk

/-- Replace every occurrence of a single character by a replacement run
(Python str.replace with a one-character needle). -/
def replaceChar (l : List Char) (c : Char) (r : List Char) : List Char :=
  (l.map (fun x => if x = c then r else [x])).flatten

/-- MailBox.standard_rw_flags (src/main.py line 52). -/
def standard_rw_flags : List String := ["SEEN", "ANSWERED", "FLAGGED", "DELETED", "DRAFT"]

/-- A Python uid argument: either a bare string or a list of strings (the
two shapes MailBox._uid_str distinguishes with a type check). -/
inductive UidParam
  | str (s : String)
  | strList (l : List String)
  deriving DecidableEq, Repr

/-- MailBox._uid_str (src/main.py lines 129-136): an empty argument and a
bare string are rejected, otherwise the uids are joined with commas.  The
emptiness test comes first, as in the source, so an empty string hits the
not-empty message. -/
def uid_str : UidParam → Except PyErr String
  | .str s =>
      if s = "" then .error (.uidParamError "uid_list should be not empty")
      else .error (.uidParamError "uid_list can not be str")
  | .strList l =>
      if l = [] then .error (.uidParamError "uid_list should be not empty")
      else .ok (pyJoinSep "," l)

/-- MailBox.delete (src/main.py lines 141-145): STORE +FLAGS (\Deleted) on
the joined uid set, then EXPUNGE; both raw results are returned.  The
second component is the trace of commands that reached the transport. -/
def delete (t : Transport) (uid_list : UidParam) :
    Except PyErr (Resp × Resp) × List Cmd :=
  match uid_str uid_list with
  | .error e => (.error e, [])
  | .ok s =>
      (.ok (t.uid "STORE" [s, "+FLAGS", "(\\Deleted)"], t.expunge),
       [Cmd.uid "STORE" [s, "+FLAGS", "(\\Deleted)"], Cmd.expunge])

/-- MailBox.copy (src/main.py lines 147-149): UID COPY to the destination
folder. -/
def copy (t : Transport) (uid_list : UidParam) (destination_folder : String) :
    Except PyErr Resp × List Cmd :=
  match uid_str uid_list with
  | .error e => (.error e, [])
  | .ok s =>
      (.ok (t.uid "COPY" [s, destination_folder]),
       [Cmd.uid "COPY" [s, destination_folder]])

/-- MailBox.move (src/main.py lines 151-156): joins the uid list once, then
hands the joined string to copy and delete.  Note that copy and delete each
re-run uid_str on their argument, exactly as the source does. -/
def move (t : Transport) (uid_list : UidParam) (destination_folder : String) :
    Except PyErr (Resp × (Resp × Resp)) × List Cmd :=
  match uid_str uid_list with
  | .error e => (.error e, [])
  | .ok uid_arg =>
      match copy t (.str uid_arg) destination_folder with
      | (.error e, tr) => (.error e, tr)
      | (.ok copy_result, tr₁) =>
          match delete t (.str uid_arg) with
          | (.error e, tr₂) => (.error e, tr₁ ++ tr₂)
          | (.ok delete_result, tr₂) => (.ok (copy_result, delete_result), tr₁ ++ tr₂)

/-- MailBox.flag (src/main.py lines 158-170): every flag name is validated
(upper-cased) against standard_rw_flags before anything else; then STORE
with +FLAGS or -FLAGS and the backslash-prefixed flag names, then
EXPUNGE. -/
def flag (t : Transport) (uid_list : UidParam) (flag_set : List String) (value : Bool) :
    Except PyErr (Resp × Resp) × List Cmd :=
  match flag_set.find? (fun f => !(standard_rw_flags.contains (pyUpper f))) with
  | some f => (.error (.wrongFlagError ("Unsupported flag: " ++ f)), [])
  | none =>
      match uid_str uid_list with
      | .error e => (.error e, [])
      | .ok s =>
          (.ok (t.uid "STORE"
                  [s, (if value then "+" else "-") ++ "FLAGS",
                   "(" ++ pyJoinSep " " (flag_set.map (fun i => "\\" ++ i)) ++ ")"],
                t.expunge),
           [Cmd.uid "STORE"
              [s, (if value then "+" else "-") ++ "FLAGS",
               "(" ++ pyJoinSep " " (flag_set.map (fun i => "\\" ++ i)) ++ ")"],
            Cmd.expunge])

/-- Iterating a Python string yields its one-character substrings. -/
def strIter (s : String) : List String := s.data.map (fun c => String.mk [c])

/-- MailBox.seen (src/main.py lines 172-177): delegates to flag, passing the
bare string Seen as the flag_set argument, exactly as the source does. -/
def seen (t : Transport) (uid_list : UidParam) (seen_val : Bool) :
    Except PyErr (Resp × Resp) × List Cmd :=
  flag t uid_list (strIter "Seen") seen_val

/-- True when an Except value is a raised MailBoxUidParamError. -/
def isUidParamError {α : Type} : Except PyErr α → Bool
  | .error (.uidParamError _) => true
  | _ => false

/-- A concrete transport whose replies are constant; used to instantiate
universally quantified theorems at a closed input. -/
def tSample : Transport :=
  ⟨fun _ _ => ("OK", "uid-done"), ("OK", "expunge-done"), fun _ => ("OK", "select-done")⟩

/-- Python dict insertion: an existing key keeps its position and gets the
new value, a new key is appended. -/
def dictUpsert (d : List (String × String)) (k v : String) : List (String × String) :=
  if d.any (fun p => p.1 == k) then d.map (fun p => if p.1 == k then (k, v) else p)
  else d ++ [(k, v)]

/-- _pairs_to_dict (src/main.py lines 35-39): an odd-length list is a
ValueError, an even-length list is paired into a dict, adjacent items
becoming key and value. -/
def pairs_to_dict (items : List String) : Except PyErr (List (String × String)) :=
  if items.length % 2 ≠ 0 then .error (.valueError "An even-length array is expected")
  else .ok ((List.range (items.length / 2)).foldl
      (fun d i => dictUpsert d (items.getD (i * 2) "") (items.getD (i * 2 + 1) "")) [])

/-- _quote (src/main.py lines 28-32), string branch: escape backslash and
double quote, then wrap in double quotes. -/
def pyQuote (arg : String) : String :=
  String.mk ('"' :: replaceChar (replaceChar arg.data '\\' ['\\', '\\']) '"' ['\\', '"'] ++ ['"'])

/-- Modelled from the spec: the folder-name codec collaborator
imap_utf7.encode, imported by src/main.py but not itself under src.  The
spec fixes it only as the modified UTF-7 variant used by IMAP for folder
names outside ASCII; in that variant printable ASCII passes through
unchanged except the ampersand, which is escaped as the two characters
ampersand and dash.  Only that ASCII fragment is exercised by the claims;
characters outside it are kept unchanged here. -/
def imap_utf7_encode (s : String) : String :=
  String.join (s.data.map (fun c => if c = '&' then "&-" else String.mk [c]))

/-- MailFolderManager._normalise_folder (src/main.py lines 312-316): encode
through the UTF-7-style codec, then quote. -/
def normalise_folder (folder : String) : String := pyQuote (imap_utf7_encode folder)

/-- MailFolderManager.set (src/main.py lines 318-322): SELECT with the folder
name exactly as given; a non-OK status raises MailBoxFolderSetError carrying
the data element of the reply.  The second component is the trace of
commands that reached the transport. -/
def folder_set (t : Transport) (folder : String) : Except PyErr Unit × List Cmd :=
  ((if (t.select folder).1 ≠ "OK" then .error (.folderSetError (t.select folder).2)
    else .ok ()),
   [Cmd.select folder])


/-- One element of the raw response list of a FETCH call: either a bare byte
fragment (noise such as a standalone FLAGS line) or a pair whose first
component carries the UID fragment and whose second carries the message
bytes. -/
inductive FetchItem
  | bytes (b : String)
  | tup (uidData : String) (msgData : String)
  deriving DecidableEq, Repr

/-- MailBox._clean_message_data (src/main.py lines 86-104): scan the
elements; a bare byte fragment never updates the accumulator (the source
skips FLAGS fragments explicitly and falls through on every other bare
fragment, which is the same non-update); a pair overwrites both message
data and uid data, so the last pair wins.  Returns (message_data,
uid_data), both empty when no pair exists. -/
def clean_message_data : List FetchItem → String × String → String × String
  | [], acc => acc
  | .bytes _ :: rest, acc => clean_message_data rest acc
  | .tup uidData msgData :: rest, _ => clean_message_data rest (msgData, uidData)

/-- The observable part of a parsed mail object: its Python truthiness
(email.message.Message defines len as the header count, so a message with
no headers is falsy) and whether its defects list is non-empty. -/
structure ParsedMsg where
  truthy : Bool
  defects : Bool
  deriving DecidableEq, Repr

/-- The transport and standard-library collaborators of MailBox.fetch:
search gives the (status, first data element decoded) pair of the SEARCH
reply, fetchMsg the raw response list of the per-id FETCH, and parse
stands for email.message_from_bytes. -/
structure FetchOracle where
  search : String → String × String
  fetchMsg : String → List FetchItem
  parse : String → ParsedMsg

/-- The literal prefix of the first UID pattern: open paren, UID, space. -/
def litUID : List Char := ['(', 'U', 'I', 'D', ' ']

/-- The literal suffix of the first UID pattern: space then RFC822. -/
def litRFC822 : List Char := [' ', 'R', 'F', 'C', '8', '2', '2']

/-- The literal suffix of the second UID pattern: space, open paren,
RFC822. -/
def litParenRFC822 : List Char := [' ', '(', 'R', 'F', 'C', '8', '2', '2']

/-- Matching the first dialect pattern at the start of the fragment: the
literal open-paren-UID-space, a maximal non-empty digit run (the backslash-d
of the pattern, modelled as ASCII digits), then the literal
space-RFC822.  Returns the digit group. -/
def matchUidAt1 (l : List Char) : Option (List Char) :=
  if litUID.isPrefixOf l then
    if (l.drop litUID.length).takeWhile Char.isDigit = [] then none
    else if litRFC822.isPrefixOf
        ((l.drop litUID.length).drop
          ((l.drop litUID.length).takeWhile Char.isDigit).length) then
      some ((l.drop litUID.length).takeWhile Char.isDigit)
    else none
  else none

/-- Matching the second dialect pattern at the start of the fragment: a
maximal non-empty digit run, then the literal space-paren-RFC822. -/
def matchUidAt2 (l : List Char) : Option (List Char) :=
  if l.takeWhile Char.isDigit = [] then none
  else if litParenRFC822.isPrefixOf (l.drop (l.takeWhile Char.isDigit).length) then
    some (l.takeWhile Char.isDigit)
  else none

/-- re.search for the first pattern: try each start position from the left,
first hit wins. -/
def searchUid1 : List Char → Option (List Char)
  | [] => matchUidAt1 []
  | c :: t =>
      match matchUidAt1 (c :: t) with
      | some d => some d
      | none => searchUid1 t

/-- re.search for the second pattern. -/
def searchUid2 : List Char → Option (List Char)
  | [] => matchUidAt2 []
  | c :: t =>
      match matchUidAt2 (c :: t) with
      | some d => some d
      | none => searchUid2 t

/-- MailBox._parse_uid (src/main.py lines 77-84): the patterns are tried in
their registration order and the first match of the first matching pattern
is returned; when no pattern matches the result is None, not an error. -/
def parse_uid (l : List Char) : Option (List Char) :=
  match searchUid1 l with
  | some d => some d
  | none => searchUid2 l

/-- The message model kept by MailBox.fetch for each yielded message:
sequence id, extracted uid (absent when no pattern matched), parsed
object. -/
structure MailMessage where
  id : String
  uid : Option (List Char)
  obj : ParsedMsg
  deriving DecidableEq, Repr

/-- The body of the fetch loop (src/main.py lines 117-127), with the
enumerate counter made explicit: break when the limit is truthy and
reached, fetch and pair the response, parse, skip falsy objects, skip
defective objects when miss_defect is set, otherwise yield. -/
def limitHit (limit : Option Int) (i : Nat) : Bool :=
  match limit with
  | none => false
  | some n => n != 0 && decide (n ≤ (i : Int))

/-- The fetch loop over the remaining message ids, starting at enumerate
index i. -/
def fetchFrom (o : FetchOracle) (limit : Option Int) (miss_defect : Bool) :
    List String → Nat → List MailMessage
  | [], _ => []
  | message_id :: rest, i =>
      if limitHit limit i then []
      else
        if (o.parse (clean_message_data (o.fetchMsg message_id) ("", "")).1).truthy then
          if miss_defect &&
              (o.parse (clean_message_data (o.fetchMsg message_id) ("", "")).1).defects then
            fetchFrom o limit miss_defect rest (i + 1)
          else
            ⟨message_id,
             parse_uid (clean_message_data (o.fetchMsg message_id) ("", "")).2.data,
             o.parse (clean_message_data (o.fetchMsg message_id) ("", "")).1⟩ ::
              fetchFrom o limit miss_defect rest (i + 1)
        else fetchFrom o limit miss_defect rest (i + 1)

/-- The MailMessage built for one id, as the loop yields it. -/
def mkMsg (o : FetchOracle) (message_id : String) : MailMessage :=
  ⟨message_id,
   parse_uid (clean_message_data (o.fetchMsg message_id) ("", "")).2.data,
   o.parse (clean_message_data (o.fetchMsg message_id) ("", "")).1⟩

/-- MailBox.fetch (src/main.py lines 106-127): SEARCH, fail on a non-OK
status, and iterate the space-separated ids of the first data element
(an empty first element means an empty iteration, matching the Python
truthiness special case). -/
def fetch (o : FetchOracle) (search_criteria : String) (limit : Option Int)
    (miss_defect : Bool) : Except PyErr (List MailMessage) :=
  if (o.search search_criteria).1 ≠ "OK" then
    .error (.searchError ((o.search search_criteria).1 ++ ": " ++ (o.search search_criteria).2))
  else
    .ok (fetchFrom o limit miss_defect
      (if (o.search search_criteria).2 ≠ "" then pySplit (o.search search_criteria).2 ' '
       else []) 0)

/-- Python str.strip() whitespace (the ASCII part of it). -/
def pyIsSpace (c : Char) : Bool :=
  c == ' ' || c == '\t' || c == '\n' || c == '\r' || c == '\x0b' || c == '\x0c'

/-- Python str.strip(): remove leading and trailing whitespace. -/
def pyStrip (l : List Char) : List Char :=
  (((l.dropWhile pyIsSpace).reverse).dropWhile pyIsSpace).reverse

/-- A character of the strip set of strip with the angle brackets. -/
def isAngle (c : Char) : Bool := c == '<' || c == '>'

/-- Python str.strip with the two angle brackets: remove every leading and
trailing angle bracket. -/
def stripAngles (l : List Char) : List Char :=
  (((l.dropWhile isAngle).reverse).dropWhile isAngle).reverse

/-- Length of the maximal newline-free prefix (the dot of the pattern does
not cross newlines). -/
def nameOkLen (s : List Char) : Nat := (s.takeWhile (fun c => !(c == '\n'))).length

/-- The greedy email group body at a position just after an open angle
bracket: within the maximal newline-free run, the characters up to the
last closing angle bracket; none when no closing bracket is reachable. -/
def emailBodyAt (l : List Char) : Option (List Char) :=
  match ((l.takeWhile (fun c => !(c == '\n'))).reverse.findIdx? (fun c => c == '>')) with
  | none => none
  | some j => some (l.take ((l.takeWhile (fun c => !(c == '\n'))).length - 1 - j))

/-- Start positions at which the name-email pattern can match: the name
group (any newline-free run from the start) ends at an open angle bracket
from which an email group is reachable. -/
def matchCandidates (s : List Char) : List Nat :=
  (List.range s.length).filter
    (fun k => decide (k ≤ nameOkLen s) && (s.getD k ' ' == '<')
      && (emailBodyAt (s.drop (k + 1))).isSome)

/-- Maximum of a list of naturals, none when empty (the greedy name group
takes the rightmost viable open angle bracket). -/
def maxCandidate : List Nat → Option Nat
  | [] => none
  | k :: t =>
      match maxCandidate t with
      | none => some k
      | some m => some (max k m)

/-- The match of the name-email pattern of _parse_email_address against the
start of the string: the name group (greedy, maximal) and the email group
including its angle brackets.  none models a failed re.match. -/
def reNameEmailMatch (s : List Char) : Option (List Char × List Char) :=
  match maxCandidate (matchCandidates s) with
  | none => none
  | some k =>
      match emailBodyAt (s.drop (k + 1)) with
      | none => none
      | some body => some (s.take k, ('<' :: body) ++ ['>'])

/-- The Address record of the spec data model. -/
structure Address where
  name : List Char
  email : List Char
  full : List Char
  deriving DecidableEq, Repr

/-- MailMessage._parse_email_address (src/main.py lines 206-221): when the
value contains both angle brackets, run the name-email pattern, strip
whitespace from the name group, strip angle brackets from the email group
and keep the original value as full; a failed match is an AttributeError
(group called on None).  Otherwise name is empty and email and full are
the whitespace-stripped input. -/
def parse_email_address (address : List Char) : Except PyErr Address :=
  if address.contains '<' && address.contains '>' then
    match reNameEmailMatch address with
    | none => .error .attributeError
    | some x => .ok ⟨pyStrip x.1, stripAngles x.2, address⟩
  else .ok ⟨[], pyStrip address, pyStrip address⟩

/-- The parsed-mail object as the To accessors see it: its header list.
Header lookup in email.message.Message is case-insensitive. -/
structure MessageObj where
  headers : List (String × String)
  deriving DecidableEq, Repr

/-- The in operator of email.message.Message: case-insensitive header
presence. -/
def msgContains (m : MessageObj) (name : String) : Bool :=
  m.headers.any (fun p => pyLower p.1 == pyLower name)

/-- Header read of email.message.Message: first matching header value. -/
def msgGetHeader (m : MessageObj) (name : String) : String :=
  match m.headers.find? (fun p => pyLower p.1 == pyLower name) with
  | some p => p.2
  | none => ""

/-- MailMessage.to_values (src/main.py lines 236-243): when a To header
exists, decode it (decode_header and _decode_value collapse to the oracle
dec, standing for the stdlib header decoding collaborator), split on
commas, and parse each segment; without a To header the result is the
empty list, not an error. -/
def to_values (dec : String → String) (m : MessageObj) : Except PyErr (List Address) :=
  if msgContains m "to" then
    (pySplit (dec (msgGetHeader m "to")) ',').mapM (fun part => parse_email_address part.data)
  else .ok []

/-- MailMessage.to (src/main.py lines 245-248): the email field of each
parsed recipient. -/
def to_ (dec : String → String) (m : MessageObj) : Except PyErr (List (List Char)) :=
  (to_values dec m).map (fun l => l.map Address.email)

lemma uid_str_str_err (s : String) : isUidParamError (uid_str (.str s)) = true := by
  by_cases h : s = "" <;> simp [uid_str, h, isUidParamError]

lemma uid_str_nil_err : isUidParamError (uid_str (.strList [])) = true := by
  simp [uid_str, isUidParamError]

/-- C1: the claim says move issues a UID COPY of the uids to the destination
folder and then the delete step (STORE +FLAGS Deleted, EXPUNGE) on the same
uids.  The code instead passes the already-joined uid string back into copy,
whose own validation rejects bare strings, so move raises
MailBoxUidParamError on every input and no command ever reaches the
transport. -/
theorem move_never_reaches_transport (t : Transport) (uid_list : UidParam)
    (destination_folder : String) :
    (move t uid_list destination_folder).2 = [] ∧
    isUidParamError (move t uid_list destination_folder).1 = true := by
  cases uid_list with
  | str s =>
      by_cases h : s = "" <;> simp [move, uid_str, h, isUidParamError]
  | strList l =>
      by_cases h : l = []
      · simp [move, uid_str, h, isUidParamError]
      · by_cases h2 : pyJoinSep "," l = "" <;>
          simp [move, uid_str, h, copy, h2, isUidParamError]

/-- C2: the claim says seen(uids, value) performs the same commands and
returns the same result as flag(uids, [Seen], value).  The code passes the
bare string Seen as flag_set, so flag iterates its characters and rejects
the first one: seen always raises MailBoxWrongFlagError (Unsupported flag:
S) with no network call, while flag with the one-element list [Seen] issues
STORE and EXPUNGE. -/
theorem seen_always_wrong_flag (t : Transport) (uid_list : UidParam) (v : Bool) :
    seen t uid_list v = (.error (.wrongFlagError "Unsupported flag: S"), []) ∧
    flag t (.strList ["1"]) ["Seen"] true =
      (.ok (t.uid "STORE" ["1", "+FLAGS", "(\\Seen)"], t.expunge),
       [Cmd.uid "STORE" ["1", "+FLAGS", "(\\Seen)"], Cmd.expunge]) := by
  exact ⟨rfl, rfl⟩

/-- C4: the claim says each of delete, copy, move, flag and seen raises
MailBoxUidParamError, before any network call, on an empty uid collection
or a bare-string uid argument.  That holds for delete, copy, move and flag
(flag with a valid flag list), but not for seen: seen hands the bare string
Seen to flag as its flag_set, so flag rejects the character S first and
raises MailBoxWrongFlagError instead, still before any network call. -/
theorem uid_param_checks (t : Transport) (s destination_folder : String) (v : Bool) :
    (isUidParamError (delete t (.strList [])).1 = true ∧ (delete t (.strList [])).2 = []) ∧
    (isUidParamError (delete t (.str s)).1 = true ∧ (delete t (.str s)).2 = []) ∧
    (isUidParamError (copy t (.strList []) destination_folder).1 = true ∧
      (copy t (.strList []) destination_folder).2 = []) ∧
    (isUidParamError (copy t (.str s) destination_folder).1 = true ∧
      (copy t (.str s) destination_folder).2 = []) ∧
    (isUidParamError (move t (.strList []) destination_folder).1 = true ∧
      (move t (.strList []) destination_folder).2 = []) ∧
    (isUidParamError (move t (.str s) destination_folder).1 = true ∧
      (move t (.str s) destination_folder).2 = []) ∧
    (isUidParamError (flag t (.strList []) ["Seen"] v).1 = true ∧
      (flag t (.strList []) ["Seen"] v).2 = []) ∧
    (isUidParamError (flag t (.str s) ["Seen"] v).1 = true ∧
      (flag t (.str s) ["Seen"] v).2 = []) ∧
    seen t (.strList []) v = (.error (.wrongFlagError "Unsupported flag: S"), []) ∧
    seen t (.str s) v = (.error (.wrongFlagError "Unsupported flag: S"), []) := by
  refine ⟨⟨rfl, rfl⟩, ?_, ⟨rfl, rfl⟩, ?_, ⟨rfl, rfl⟩, ?_, ⟨rfl, rfl⟩, ?_, rfl, rfl⟩ <;>
    by_cases h : s = "" <;>
      simp [delete, copy, move, flag, uid_str, h, isUidParamError] <;> decide

/-- C5: a flag set holding any name whose upper-case form is outside the
standard set makes flag raise MailBoxWrongFlagError (for the first such
name) with no network call; the validation loop runs before the STORE. -/
theorem flag_rejects_nonstandard (t : Transport) (uid_list : UidParam)
    (flag_set : List String) (v : Bool) (f : String) (hf : f ∈ flag_set)
    (hbad : standard_rw_flags.contains (pyUpper f) = false) :
    (∃ g, (flag t uid_list flag_set v).1 =
        .error (.wrongFlagError ("Unsupported flag: " ++ g))) ∧
    (flag t uid_list flag_set v).2 = [] := by
  have hsome : (flag_set.find? (fun x => !(standard_rw_flags.contains (pyUpper x)))).isSome := by
    rw [List.find?_isSome]
    exact ⟨f, hf, by simpa using hbad⟩
  obtain ⟨g, hg⟩ := Option.isSome_iff_exists.mp hsome
  constructor
  · exact ⟨g, by simp only [flag, hg]⟩
  · simp only [flag, hg]

/-- Witness for C5 at a closed input. -/
theorem flag_rejects_nonstandard_witness :
    ("Recent" ∈ (["Recent"] : List String)) ∧
    standard_rw_flags.contains (pyUpper "Recent") = false ∧
    ((∃ g, (flag tSample (.strList ["1"]) ["Recent"] true).1 =
        .error (.wrongFlagError ("Unsupported flag: " ++ g))) ∧
      (flag tSample (.strList ["1"]) ["Recent"] true).2 = []) :=
  ⟨by decide, by decide,
   flag_rejects_nonstandard tSample (.strList ["1"]) ["Recent"] true "Recent"
     (by decide) (by decide)⟩

/-- C7: pairs_to_dict turns the token list MESSAGES 3 UIDNEXT 4 into the
mapping pairing adjacent tokens, and every odd-length token list raises
ValueError. -/
theorem pairs_to_dict_spec :
    pairs_to_dict ["MESSAGES", "3", "UIDNEXT", "4"] =
      .ok [("MESSAGES", "3"), ("UIDNEXT", "4")] ∧
    ∀ items : List String, items.length % 2 ≠ 0 →
      pairs_to_dict items = .error (.valueError "An even-length array is expected") := by
  constructor
  · decide
  · intro items h
    simp [pairs_to_dict, h]

/-- Witness for C7 at a closed odd-length input. -/
theorem pairs_to_dict_spec_witness :
    (["MESSAGES"] : List String).length % 2 ≠ 0 ∧
    pairs_to_dict ["MESSAGES"] = .error (.valueError "An even-length array is expected") :=
  ⟨by decide, pairs_to_dict_spec.2 ["MESSAGES"] (by decide)⟩

/-- C8 counterexample: the claim says set issues SELECT with the folder name
encoded through the UTF-7-style codec and quoted.  The source calls select
with the folder argument untouched: for the plain folder INBOX the issued
command carries INBOX while the encode-and-quote normalisation would give
INBOX wrapped in double quotes; the two differ. -/
theorem folder_set_not_normalised :
    (folder_set tSample "INBOX").2 = [Cmd.select "INBOX"] ∧
    normalise_folder "INBOX" = "\"INBOX\"" ∧
    Cmd.select "INBOX" ≠ Cmd.select (normalise_folder "INBOX") := by
  refine ⟨rfl, by decide, by decide⟩

/-- C8 amended: set issues SELECT with the folder name exactly as given (the
encode-and-quote normalisation is applied only by status and list), and a
non-OK status raises MailBoxFolderSetError carrying the data element of the
reply. -/
theorem folder_set_spec (t : Transport) (folder : String) :
    (folder_set t folder).2 = [Cmd.select folder] ∧
    (folder_set t folder).1 =
      (if (t.select folder).1 ≠ "OK" then .error (.folderSetError (t.select folder).2)
       else .ok ()) :=
  ⟨rfl, rfl⟩

/-- C10: a message without a To header makes to_values the empty list and to
the empty list; the absence of recipients is not an error. -/
theorem to_values_absent (dec : String → String) (m : MessageObj)
    (h : msgContains m "to" = false) :
    to_values dec m = .ok [] ∧ to_ dec m = .ok [] := by
  constructor <;> simp [to_values, to_, h, Except.map]

/-- Witness for C10 at a closed message without a To header. -/
theorem to_values_absent_witness :
    msgContains ⟨[("Subject", "hi")]⟩ "to" = false ∧
    (to_values id ⟨[("Subject", "hi")]⟩ = .ok [] ∧ to_ id ⟨[("Subject", "hi")]⟩ = .ok []) :=
  ⟨by decide, to_values_absent id ⟨[("Subject", "hi")]⟩ (by decide)⟩

lemma fetchFrom_no_limit (o : FetchOracle) (md : Bool)
    (H : ∀ mid, (o.parse (clean_message_data (o.fetchMsg mid) ("", "")).1).truthy = true ∧
        (o.parse (clean_message_data (o.fetchMsg mid) ("", "")).1).defects = false) :
    ∀ ids i, fetchFrom o none md ids i = ids.map (mkMsg o) := by
  intro ids
  induction ids with
  | nil => intro i; rfl
  | cons x xs ih =>
      intro i
      simp [fetchFrom, limitHit, (H x).1, (H x).2, mkMsg, ih]

lemma fetchFrom_zero_limit (o : FetchOracle) (md : Bool)
    (H : ∀ mid, (o.parse (clean_message_data (o.fetchMsg mid) ("", "")).1).truthy = true ∧
        (o.parse (clean_message_data (o.fetchMsg mid) ("", "")).1).defects = false) :
    ∀ ids i, fetchFrom o (some 0) md ids i = ids.map (mkMsg o) := by
  intro ids
  induction ids with
  | nil => intro i; rfl
  | cons x xs ih =>
      intro i
      simp [fetchFrom, limitHit, (H x).1, (H x).2, mkMsg, ih]

lemma fetchFrom_pos_limit (o : FetchOracle) (md : Bool) (n : Int) (hn : 0 < n)
    (H : ∀ mid, (o.parse (clean_message_data (o.fetchMsg mid) ("", "")).1).truthy = true ∧
        (o.parse (clean_message_data (o.fetchMsg mid) ("", "")).1).defects = false) :
    ∀ ids i, fetchFrom o (some n) md ids i = (ids.take (n.toNat - i)).map (mkMsg o) := by
  intro ids
  induction ids with
  | nil => intro i; simp [fetchFrom]
  | cons x xs ih =>
      intro i
      by_cases hlim : n ≤ (i : Int)
      · have h1 : limitHit (some n) i = true := by
          simp [limitHit, hlim]
          omega
        have h2 : n.toNat - i = 0 := by omega
        simp [fetchFrom, h1, h2]
      · have h1 : limitHit (some n) i = false := by
          simp [limitHit]
          intro _
          omega
        have h2 : n.toNat - i = (n.toNat - (i + 1)) + 1 := by omega
        simp [fetchFrom, h1, (H x).1, (H x).2, mkMsg, ih, h2]

lemma fetchFrom_neg_limit (o : FetchOracle) (md : Bool) (n : Int) (hn : n < 0) :
    ∀ ids, fetchFrom o (some n) md ids 0 = [] := by
  intro ids
  cases ids with
  | nil => rfl
  | cons x xs =>
      have h1 : limitHit (some n) 0 = true := by
        simp [limitHit]
        omega
      simp [fetchFrom, h1]

/-- C3 amended: when the SEARCH status is OK and every fetched message
parses truthy and defect-free, fetch yields all ids when the limit is
absent or exactly zero; the first limit ids (so min of result count and
limit many messages) when the limit is positive, in server order; no
messages at all when the limit is negative (the loop breaks at index
zero); and no messages when the first SEARCH data element is the empty
string. -/
theorem fetch_count_spec (o : FetchOracle) (c : String) (md : Bool)
    (hok : (o.search c).1 = "OK")
    (H : ∀ mid, (o.parse (clean_message_data (o.fetchMsg mid) ("", "")).1).truthy = true ∧
        (o.parse (clean_message_data (o.fetchMsg mid) ("", "")).1).defects = false) :
    (fetch o c none md =
      .ok ((if (o.search c).2 ≠ "" then pySplit (o.search c).2 ' ' else []).map (mkMsg o))) ∧
    (fetch o c (some 0) md =
      .ok ((if (o.search c).2 ≠ "" then pySplit (o.search c).2 ' ' else []).map (mkMsg o))) ∧
    (∀ n : Int, 0 < n →
      fetch o c (some n) md =
        .ok (((if (o.search c).2 ≠ "" then pySplit (o.search c).2 ' '
               else []).take n.toNat).map (mkMsg o)) ∧
      (((if (o.search c).2 ≠ "" then pySplit (o.search c).2 ' '
         else []).take n.toNat).map (mkMsg o)).length =
        min (if (o.search c).2 ≠ "" then pySplit (o.search c).2 ' ' else []).length n.toNat) ∧
    (∀ n : Int, n < 0 → fetch o c (some n) md = .ok []) ∧
    ((o.search c).2 = "" → fetch o c none md = .ok []) := by
  refine ⟨?_, ?_, ?_, ?_, ?_⟩
  · simp [fetch, hok, fetchFrom_no_limit o md H]
  · simp [fetch, hok, fetchFrom_zero_limit o md H]
  · intro n hn
    constructor
    · simp [fetch, hok, fetchFrom_pos_limit o md n hn H]
    · simp [List.length_take, Nat.min_comm]
  · intro n hn
    simp [fetch, hok, fetchFrom_neg_limit o md n hn]
  · intro hempty
    simp [fetch, hok, hempty, fetchFrom]

/-- A concrete fetch oracle: the SEARCH reply holds the three ids 1 2 3 and
every fetched message parses truthy and defect-free. -/
def fetchOracleEx : FetchOracle :=
  ⟨fun _ => ("OK", "1 2 3"),
   fun _ => [FetchItem.bytes "3 (FLAGS (\\Recent))",
             FetchItem.tup "3 (UID 21 RFC822" "raw message"],
   fun _ => ⟨true, false⟩⟩

/-- C3 counterexample: the claim says a limit of at most zero means
unbounded.  With three search results and limit minus one the code yields
no message at all: the loop condition treats a negative limit as truthy
and already reached at index zero. -/
theorem fetch_negative_limit_cex :
    fetch fetchOracleEx "ALL" (some (-1)) true = .ok [] ∧
    (pySplit (fetchOracleEx.search "ALL").2 ' ').length = 3 ∧
    (-1 : Int) ≤ 0 :=
  ⟨rfl, rfl, by decide⟩

/-- Witness for C3 at a closed oracle and positive limit. -/
theorem fetch_count_spec_witness :
    (fetchOracleEx.search "ALL").1 = "OK" ∧ (0 : Int) < 2 ∧
    fetch fetchOracleEx "ALL" (some 2) true =
      .ok (((if (fetchOracleEx.search "ALL").2 ≠ "" then pySplit (fetchOracleEx.search "ALL").2 ' '
             else []).take (2 : Int).toNat).map (mkMsg fetchOracleEx)) :=
  ⟨rfl, by decide,
   ((fetch_count_spec fetchOracleEx "ALL" true rfl (fun _ => ⟨rfl, rfl⟩)).2.2.1 2 (by decide)).1⟩

/-- C6 counterexample: the claim says parsing the Ivan Petrov example yields
the name Ivan Petrov.  The source strips only whitespace from the name
group, so the surrounding double-quote characters of the display name stay
in the result: the parsed name differs from the claimed one. -/
theorem parse_address_keeps_quotes_cex :
    parse_email_address ("\"Ivan Petrov\" <ivan@mail.ru>".data) =
      .ok ⟨"\"Ivan Petrov\"".data, "ivan@mail.ru".data,
           "\"Ivan Petrov\" <ivan@mail.ru>".data⟩ ∧
    "\"Ivan Petrov\"".data ≠ "Ivan Petrov".data := by
  exact ⟨by decide, by decide⟩

/-- C6 amended: parsing the Ivan Petrov example yields the name with its
surrounding double-quote characters kept (only whitespace is stripped),
email ivan@mail.ru and full equal to the original header value; and every
input that does not contain both angle brackets parses to an empty name
with email and full both the whitespace-stripped input. -/
theorem parse_email_address_spec :
    parse_email_address ("\"Ivan Petrov\" <ivan@mail.ru>".data) =
      .ok ⟨"\"Ivan Petrov\"".data, "ivan@mail.ru".data,
           "\"Ivan Petrov\" <ivan@mail.ru>".data⟩ ∧
    ∀ address : List Char, (address.contains '<' && address.contains '>') = false →
      parse_email_address address = .ok ⟨[], pyStrip address, pyStrip address⟩ := by
  constructor
  · decide
  · intro address h
    have h2 : ¬((address.contains '<' && address.contains '>') = true) := by
      intro hh
      rw [hh] at h
      exact Bool.noConfusion h
    simp only [parse_email_address, if_neg h2]

/-- Witness for C6 at a closed input without angle brackets. -/
theorem parse_email_address_spec_witness :
    (("ivan@mail.ru".data.contains '<' && "ivan@mail.ru".data.contains '>') = false) ∧
    parse_email_address ("ivan@mail.ru".data) =
      .ok ⟨[], pyStrip "ivan@mail.ru".data, pyStrip "ivan@mail.ru".data⟩ :=
  ⟨by decide, parse_email_address_spec.2 "ivan@mail.ru".data (by decide)⟩

